import Mathlib

/-!
# Verification of the predator/fruit model of `arcade_starter/main.py`

Shallow embedding of the `Predator` and `Fruit` classes of
`src/arcade_starter/main.py`.  Python floats are modelled as real numbers,
`math.sqrt` as `Real.sqrt` and `math.atan2` as the piecewise `atan2` below.
The calls to `random.uniform` inside `Predator.update` are modelled as
explicit inputs (the `UpdateRand` structure): each field is the value the
corresponding `random.uniform` call site returns during that update call.
Rendering-only attributes (`color`) never feed into the modelled functions
and are omitted.  `Predator.update` is written as a composition of one
named step per block of the Python method, in source order.
-/

/-- The behavioural mode strings used by `Predator.state`
    (`"hunting"`, `"patrolling"`, `"intercepting"` in the source). -/
abbrev PState := String

/-- The mutable attributes of the Python `Predator` object
    (`Predator.__init__`, lines 35-71 of `main.py`). -/
structure Predator where
  center_x : ℝ
  center_y : ℝ
  size : ℝ
  velocity_x : ℝ
  velocity_y : ℝ
  max_speed : ℝ
  acceleration : ℝ
  rotation : ℝ
  state : PState
  state_timer : ℝ
  reaction_delay : ℝ
  reaction_timer : ℝ
  target_x : ℝ
  target_y : ℝ
  last_player_x : ℝ
  last_player_y : ℝ
  player_velocity_x : ℝ
  player_velocity_y : ℝ
  accuracy : ℝ
  hesitation_timer : ℝ
  is_hesitating : Bool
  patrol_center_x : ℝ
  patrol_center_y : ℝ
  patrol_radius : ℝ
  patrol_angle : ℝ

/-- The values returned by the four `random.uniform` call sites inside one
    `Predator.update` call: the hesitation-entry threshold
    (`random.uniform(3.0, 8.0)`, line 98), the hesitation-exit threshold
    (`random.uniform(0.2, 0.8)`, line 102), and the two aim-error draws
    (`random.uniform(-20, 20)`, lines 155-156). -/
structure UpdateRand where
  hes_entry : ℝ
  hes_exit : ℝ
  err_x : ℝ
  err_y : ℝ

/-- `Predator.__init__(x, y)`; the four `random.uniform` draws made at
    construction are explicit arguments. -/
noncomputable def Predator.init (x y reaction_delay accuracy patrol_radius
    patrol_angle : ℝ) : Predator :=
  { center_x := x, center_y := y, size := 24
    velocity_x := 0, velocity_y := 0
    max_speed := 150, acceleration := 400, rotation := 0
    state := "hunting", state_timer := 0
    reaction_delay := reaction_delay, reaction_timer := 0
    target_x := x, target_y := y
    last_player_x := x, last_player_y := y
    player_velocity_x := 0, player_velocity_y := 0
    accuracy := accuracy, hesitation_timer := 0, is_hesitating := false
    patrol_center_x := x, patrol_center_y := y
    patrol_radius := patrol_radius, patrol_angle := patrol_angle }

/-- `math.atan2(y, x)` (used only for the visual `rotation` attribute). -/
noncomputable def atan2 (y x : ℝ) : ℝ :=
  if 0 < x then Real.arctan (y / x)
  else if x < 0 ∧ 0 ≤ y then Real.arctan (y / x) + Real.pi
  else if x < 0 ∧ y < 0 then Real.arctan (y / x) - Real.pi
  else if x = 0 ∧ 0 < y then Real.pi / 2
  else if x = 0 ∧ y < 0 then -(Real.pi / 2)
  else 0

/-- Lines 74-76 of `update`: the three timer accumulations. -/
noncomputable def tickTimers (p : Predator) (delta_time : ℝ) : Predator :=
  { p with state_timer := p.state_timer + delta_time
           reaction_timer := p.reaction_timer + delta_time
           hesitation_timer := p.hesitation_timer + delta_time }

/-- Lines 79-84 of `update`: recompute the perceived player velocity once
    per `reaction_delay` interval. -/
noncomputable def perceive (p : Predator) (player_x player_y : ℝ) : Predator :=
  if p.reaction_timer ≥ p.reaction_delay then
    { p with
      player_velocity_x := (player_x - p.last_player_x) / p.reaction_delay
      player_velocity_y := (player_y - p.last_player_y) / p.reaction_delay
      last_player_x := player_x
      last_player_y := player_y
      reaction_timer := 0 }
  else p

/-- Line 87 of `update`: `distance_to_player`. -/
noncomputable def distance_to_player (p : Predator) (player_x player_y : ℝ) : ℝ :=
  Real.sqrt ((p.center_x - player_x) ^ 2 + (p.center_y - player_y) ^ 2)

/-- Lines 90-95 of `update`: the state-management `if`/`elif` chain. -/
noncomputable def stateTransition (p : Predator) (distance : ℝ) : Predator :=
  if distance < 100 then { p with state := "hunting" }
  else if distance > 200 ∧ p.state = "hunting" then { p with state := "intercepting" }
  else if distance > 300 then { p with state := "patrolling" }
  else p

/-- Lines 98-100 of `update`: the hesitation-entry branch.  `roll` is the
    value of `random.uniform(3.0, 8.0)`.  Note that the source guards this
    branch only by the timer comparison, not by `not self.is_hesitating`. -/
noncomputable def hesitationEntry (p : Predator) (roll : ℝ) : Predator :=
  if p.hesitation_timer > roll then
    { p with is_hesitating := true, hesitation_timer := 0 }
  else p

/-- Lines 102-104 of `update`: the hesitation-exit branch.  `roll` is the
    value of `random.uniform(0.2, 0.8)`. -/
noncomputable def hesitationExit (p : Predator) (roll : ℝ) : Predator :=
  if p.is_hesitating = true ∧ p.hesitation_timer > roll then
    { p with is_hesitating := false, hesitation_timer := 0 }
  else p

/-- `Predator._calculate_target` (lines 128-158).  `err_x`, `err_y` are the
    two `random.uniform(-20, 20)` draws of lines 155-156. -/
noncomputable def Predator.calculate_target (p : Predator)
    (player_x player_y distance err_x err_y : ℝ) : Predator :=
  let p :=
    if p.state = "hunting" then
      let prediction_time := distance / p.max_speed * 0.3
      { p with target_x := player_x + p.player_velocity_x * prediction_time
               target_y := player_y + p.player_velocity_y * prediction_time }
    else if p.state = "intercepting" then
      let prediction_time := distance / p.max_speed * 0.8
      let p := { p with
        target_x := player_x + p.player_velocity_x * prediction_time
        target_y := player_y + p.player_velocity_y * prediction_time }
      if |p.player_velocity_x| > |p.player_velocity_y| then
        { p with target_y :=
            p.target_y + 50 * (if p.center_y < player_y then (1 : ℝ) else -1) }
      else
        { p with target_x :=
            p.target_x + 50 * (if p.center_x < player_x then (1 : ℝ) else -1) }
    else if p.state = "patrolling" then
      let p := { p with patrol_angle := p.patrol_angle + 0.5 * 0.016 }
      { p with target_x := p.patrol_center_x + Real.cos p.patrol_angle * p.patrol_radius
               target_y := p.patrol_center_y + Real.sin p.patrol_angle * p.patrol_radius }
    else p
  { p with target_x := p.target_x + err_x * (1.0 - p.accuracy)
           target_y := p.target_y + err_y * (1.0 - p.accuracy) }

/-- Lines 191-195 of `_move_towards_target`: the "Limit maximum speed"
    clamp applied to the post-acceleration velocity. -/
noncomputable def limitSpeed (p : Predator) : Predator :=
  let vel_magnitude :=
    Real.sqrt (p.velocity_x * p.velocity_x + p.velocity_y * p.velocity_y)
  if vel_magnitude > p.max_speed then
    { p with velocity_x := p.velocity_x / vel_magnitude * p.max_speed
             velocity_y := p.velocity_y / vel_magnitude * p.max_speed }
  else p

/-- `Predator._move_towards_target` (lines 160-195). -/
noncomputable def Predator.move_towards_target (p : Predator) (delta_time : ℝ) :
    Predator :=
  let dx := p.target_x - p.center_x
  let dy := p.target_y - p.center_y
  let distance := Real.sqrt (dx * dx + dy * dy)
  if distance > 1.0 then
    let dx := dx / distance
    let dy := dy / distance
    let desired_speed := min p.max_speed (distance * 2)
    let desired_vel_x := dx * desired_speed
    let desired_vel_y := dy * desired_speed
    let accel_x := (desired_vel_x - p.velocity_x) * p.acceleration * delta_time
    let accel_y := (desired_vel_y - p.velocity_y) * p.acceleration * delta_time
    let max_accel := p.acceleration * delta_time
    let accel_magnitude := Real.sqrt (accel_x * accel_x + accel_y * accel_y)
    let accel_x := if accel_magnitude > max_accel
      then accel_x / accel_magnitude * max_accel else accel_x
    let accel_y := if accel_magnitude > max_accel
      then accel_y / accel_magnitude * max_accel else accel_y
    limitSpeed { p with velocity_x := p.velocity_x + accel_x
                        velocity_y := p.velocity_y + accel_y }
  else p

/-- Lines 110-115 of `update`: steer when not hesitating, otherwise halve
    both velocity components. -/
noncomputable def applyMovement (p : Predator) (delta_time : ℝ) : Predator :=
  if p.is_hesitating = true then
    { p with velocity_x := p.velocity_x * 0.5, velocity_y := p.velocity_y * 0.5 }
  else p.move_towards_target delta_time

/-- Lines 118-119 of `update`: Euler position integration. -/
noncomputable def integratePosition (p : Predator) (delta_time : ℝ) : Predator :=
  { p with center_x := p.center_x + p.velocity_x * delta_time
           center_y := p.center_y + p.velocity_y * delta_time }

/-- Lines 201-206: the x-axis block of `_handle_wall_collisions`. -/
noncomputable def wallX (p : Predator) (window_width : ℝ) : Predator :=
  let half_size := p.size / 2
  if p.center_x ≤ half_size then
    { p with center_x := half_size, velocity_x := |p.velocity_x| * 0.8 }
  else if p.center_x ≥ window_width - half_size then
    { p with center_x := window_width - half_size
             velocity_x := -|p.velocity_x| * 0.8 }
  else p

/-- Lines 208-213: the y-axis block of `_handle_wall_collisions`. -/
noncomputable def wallY (p : Predator) (window_height : ℝ) : Predator :=
  let half_size := p.size / 2
  if p.center_y ≤ half_size then
    { p with center_y := half_size, velocity_y := |p.velocity_y| * 0.8 }
  else if p.center_y ≥ window_height - half_size then
    { p with center_y := window_height - half_size
             velocity_y := -|p.velocity_y| * 0.8 }
  else p

/-- `Predator._handle_wall_collisions` (lines 197-213): the x-axis
    `if`/`elif` block followed by the y-axis one. -/
noncomputable def Predator.handle_wall_collisions (p : Predator)
    (window_width window_height : ℝ) : Predator :=
  wallY (wallX p window_width) window_height

/-- Lines 125-126 of `update`: visual rotation from velocity. -/
noncomputable def updateRotation (p : Predator) : Predator :=
  if |p.velocity_x| > 0.1 ∨ |p.velocity_y| > 0.1 then
    { p with rotation := atan2 p.velocity_y p.velocity_x }
  else p

/-- `Predator.update` (lines 73-126), as the composition of the step
    functions above, in source order. -/
noncomputable def Predator.update (p : Predator)
    (delta_time player_x player_y window_width window_height : ℝ)
    (r : UpdateRand) : Predator :=
  let p := tickTimers p delta_time
  let p := perceive p player_x player_y
  let d := distance_to_player p player_x player_y
  let p := stateTransition p d
  let p := hesitationEntry p r.hes_entry
  let p := hesitationExit p r.hes_exit
  let p := p.calculate_target player_x player_y d r.err_x r.err_y
  let p := applyMovement p delta_time
  let p := integratePosition p delta_time
  let p := p.handle_wall_collisions window_width window_height
  updateRotation p

/-- `Predator.check_collision` (lines 227-230). -/
noncomputable def Predator.check_collision (p : Predator)
    (player_x player_y player_size : ℝ) : Bool :=
  let distance :=
    Real.sqrt ((p.center_x - player_x) ^ 2 + (p.center_y - player_y) ^ 2)
  decide (distance < (p.size + player_size) / 2)

/-- The geometric attributes of the Python `Fruit` object (lines 15-21);
    the rendering-only `color` attribute is omitted. -/
structure Fruit where
  center_x : ℝ
  center_y : ℝ
  size : ℝ

/-- `Fruit.check_collision` (lines 26-30): an axis-separable overlap test. -/
noncomputable def Fruit.check_collision (f : Fruit)
    (player_x player_y player_size : ℝ) : Bool :=
  let half_fruit := f.size / 2
  let half_player := player_size / 2
  decide (|f.center_x - player_x| < half_fruit + half_player ∧
          |f.center_y - player_y| < half_fruit + half_player)

/-- Modelled from the spec (§4, Hesitation): the hesitation-entry branch as
    the spec words it, guarded additionally by "not currently hesitating".
    Used only to exhibit where the source (which has no such guard)
    diverges from this reading. -/
noncomputable def hesitationEntrySpec (p : Predator) (roll : ℝ) : Predator :=
  if p.is_hesitating = false ∧ p.hesitation_timer > roll then
    { p with is_hesitating := true, hesitation_timer := 0 }
  else p

/-! ### Field-preservation lemmas: which attributes each step leaves unchanged -/

@[simp] theorem tickTimers_center_x (p : Predator) (delta_time : ℝ) :
    (tickTimers p delta_time).center_x = p.center_x := rfl

@[simp] theorem tickTimers_center_y (p : Predator) (delta_time : ℝ) :
    (tickTimers p delta_time).center_y = p.center_y := rfl

@[simp] theorem tickTimers_velocity_x (p : Predator) (delta_time : ℝ) :
    (tickTimers p delta_time).velocity_x = p.velocity_x := rfl

@[simp] theorem tickTimers_velocity_y (p : Predator) (delta_time : ℝ) :
    (tickTimers p delta_time).velocity_y = p.velocity_y := rfl

@[simp] theorem tickTimers_max_speed (p : Predator) (delta_time : ℝ) :
    (tickTimers p delta_time).max_speed = p.max_speed := rfl

@[simp] theorem tickTimers_size (p : Predator) (delta_time : ℝ) :
    (tickTimers p delta_time).size = p.size := rfl

@[simp] theorem tickTimers_state (p : Predator) (delta_time : ℝ) :
    (tickTimers p delta_time).state = p.state := rfl

@[simp] theorem tickTimers_is_hesitating (p : Predator) (delta_time : ℝ) :
    (tickTimers p delta_time).is_hesitating = p.is_hesitating := rfl

@[simp] theorem perceive_center_x (p : Predator) (player_x player_y : ℝ) :
    (perceive p player_x player_y).center_x = p.center_x := by simp only [perceive]; split_ifs <;> rfl

@[simp] theorem perceive_center_y (p : Predator) (player_x player_y : ℝ) :
    (perceive p player_x player_y).center_y = p.center_y := by simp only [perceive]; split_ifs <;> rfl

@[simp] theorem perceive_velocity_x (p : Predator) (player_x player_y : ℝ) :
    (perceive p player_x player_y).velocity_x = p.velocity_x := by simp only [perceive]; split_ifs <;> rfl

@[simp] theorem perceive_velocity_y (p : Predator) (player_x player_y : ℝ) :
    (perceive p player_x player_y).velocity_y = p.velocity_y := by simp only [perceive]; split_ifs <;> rfl

@[simp] theorem perceive_max_speed (p : Predator) (player_x player_y : ℝ) :
    (perceive p player_x player_y).max_speed = p.max_speed := by simp only [perceive]; split_ifs <;> rfl

@[simp] theorem perceive_size (p : Predator) (player_x player_y : ℝ) :
    (perceive p player_x player_y).size = p.size := by simp only [perceive]; split_ifs <;> rfl

@[simp] theorem perceive_state (p : Predator) (player_x player_y : ℝ) :
    (perceive p player_x player_y).state = p.state := by simp only [perceive]; split_ifs <;> rfl

@[simp] theorem perceive_is_hesitating (p : Predator) (player_x player_y : ℝ) :
    (perceive p player_x player_y).is_hesitating = p.is_hesitating := by simp only [perceive]; split_ifs <;> rfl

@[simp] theorem perceive_hesitation_timer (p : Predator) (player_x player_y : ℝ) :
    (perceive p player_x player_y).hesitation_timer = p.hesitation_timer := by simp only [perceive]; split_ifs <;> rfl

@[simp] theorem stateTransition_center_x (p : Predator) (distance : ℝ) :
    (stateTransition p distance).center_x = p.center_x := by simp only [stateTransition]; split_ifs <;> rfl

@[simp] theorem stateTransition_center_y (p : Predator) (distance : ℝ) :
    (stateTransition p distance).center_y = p.center_y := by simp only [stateTransition]; split_ifs <;> rfl

@[simp] theorem stateTransition_velocity_x (p : Predator) (distance : ℝ) :
    (stateTransition p distance).velocity_x = p.velocity_x := by simp only [stateTransition]; split_ifs <;> rfl

@[simp] theorem stateTransition_velocity_y (p : Predator) (distance : ℝ) :
    (stateTransition p distance).velocity_y = p.velocity_y := by simp only [stateTransition]; split_ifs <;> rfl

@[simp] theorem stateTransition_max_speed (p : Predator) (distance : ℝ) :
    (stateTransition p distance).max_speed = p.max_speed := by simp only [stateTransition]; split_ifs <;> rfl

@[simp] theorem stateTransition_size (p : Predator) (distance : ℝ) :
    (stateTransition p distance).size = p.size := by simp only [stateTransition]; split_ifs <;> rfl

@[simp] theorem stateTransition_is_hesitating (p : Predator) (distance : ℝ) :
    (stateTransition p distance).is_hesitating = p.is_hesitating := by simp only [stateTransition]; split_ifs <;> rfl

@[simp] theorem stateTransition_hesitation_timer (p : Predator) (distance : ℝ) :
    (stateTransition p distance).hesitation_timer = p.hesitation_timer := by simp only [stateTransition]; split_ifs <;> rfl

@[simp] theorem hesitationEntry_center_x (p : Predator) (roll : ℝ) :
    (hesitationEntry p roll).center_x = p.center_x := by simp only [hesitationEntry]; split_ifs <;> rfl

@[simp] theorem hesitationEntry_center_y (p : Predator) (roll : ℝ) :
    (hesitationEntry p roll).center_y = p.center_y := by simp only [hesitationEntry]; split_ifs <;> rfl

@[simp] theorem hesitationEntry_velocity_x (p : Predator) (roll : ℝ) :
    (hesitationEntry p roll).velocity_x = p.velocity_x := by simp only [hesitationEntry]; split_ifs <;> rfl

@[simp] theorem hesitationEntry_velocity_y (p : Predator) (roll : ℝ) :
    (hesitationEntry p roll).velocity_y = p.velocity_y := by simp only [hesitationEntry]; split_ifs <;> rfl

@[simp] theorem hesitationEntry_max_speed (p : Predator) (roll : ℝ) :
    (hesitationEntry p roll).max_speed = p.max_speed := by simp only [hesitationEntry]; split_ifs <;> rfl

@[simp] theorem hesitationEntry_size (p : Predator) (roll : ℝ) :
    (hesitationEntry p roll).size = p.size := by simp only [hesitationEntry]; split_ifs <;> rfl

@[simp] theorem hesitationEntry_state (p : Predator) (roll : ℝ) :
    (hesitationEntry p roll).state = p.state := by simp only [hesitationEntry]; split_ifs <;> rfl

@[simp] theorem hesitationExit_center_x (p : Predator) (roll : ℝ) :
    (hesitationExit p roll).center_x = p.center_x := by simp only [hesitationExit]; split_ifs <;> rfl

@[simp] theorem hesitationExit_center_y (p : Predator) (roll : ℝ) :
    (hesitationExit p roll).center_y = p.center_y := by simp only [hesitationExit]; split_ifs <;> rfl

@[simp] theorem hesitationExit_velocity_x (p : Predator) (roll : ℝ) :
    (hesitationExit p roll).velocity_x = p.velocity_x := by simp only [hesitationExit]; split_ifs <;> rfl

@[simp] theorem hesitationExit_velocity_y (p : Predator) (roll : ℝ) :
    (hesitationExit p roll).velocity_y = p.velocity_y := by simp only [hesitationExit]; split_ifs <;> rfl

@[simp] theorem hesitationExit_max_speed (p : Predator) (roll : ℝ) :
    (hesitationExit p roll).max_speed = p.max_speed := by simp only [hesitationExit]; split_ifs <;> rfl

@[simp] theorem hesitationExit_size (p : Predator) (roll : ℝ) :
    (hesitationExit p roll).size = p.size := by simp only [hesitationExit]; split_ifs <;> rfl

@[simp] theorem hesitationExit_state (p : Predator) (roll : ℝ) :
    (hesitationExit p roll).state = p.state := by simp only [hesitationExit]; split_ifs <;> rfl

@[simp] theorem calculate_target_center_x (p : Predator) (player_x player_y distance err_x err_y : ℝ) :
    (p.calculate_target player_x player_y distance err_x err_y).center_x = p.center_x := by simp only [Predator.calculate_target]; split_ifs <;> rfl

@[simp] theorem calculate_target_center_y (p : Predator) (player_x player_y distance err_x err_y : ℝ) :
    (p.calculate_target player_x player_y distance err_x err_y).center_y = p.center_y := by simp only [Predator.calculate_target]; split_ifs <;> rfl

@[simp] theorem calculate_target_velocity_x (p : Predator) (player_x player_y distance err_x err_y : ℝ) :
    (p.calculate_target player_x player_y distance err_x err_y).velocity_x = p.velocity_x := by simp only [Predator.calculate_target]; split_ifs <;> rfl

@[simp] theorem calculate_target_velocity_y (p : Predator) (player_x player_y distance err_x err_y : ℝ) :
    (p.calculate_target player_x player_y distance err_x err_y).velocity_y = p.velocity_y := by simp only [Predator.calculate_target]; split_ifs <;> rfl

@[simp] theorem calculate_target_max_speed (p : Predator) (player_x player_y distance err_x err_y : ℝ) :
    (p.calculate_target player_x player_y distance err_x err_y).max_speed = p.max_speed := by simp only [Predator.calculate_target]; split_ifs <;> rfl

@[simp] theorem calculate_target_size (p : Predator) (player_x player_y distance err_x err_y : ℝ) :
    (p.calculate_target player_x player_y distance err_x err_y).size = p.size := by simp only [Predator.calculate_target]; split_ifs <;> rfl

@[simp] theorem calculate_target_state (p : Predator) (player_x player_y distance err_x err_y : ℝ) :
    (p.calculate_target player_x player_y distance err_x err_y).state = p.state := by simp only [Predator.calculate_target]; split_ifs <;> rfl

@[simp] theorem calculate_target_is_hesitating (p : Predator) (player_x player_y distance err_x err_y : ℝ) :
    (p.calculate_target player_x player_y distance err_x err_y).is_hesitating = p.is_hesitating := by simp only [Predator.calculate_target]; split_ifs <;> rfl

@[simp] theorem calculate_target_hesitation_timer (p : Predator) (player_x player_y distance err_x err_y : ℝ) :
    (p.calculate_target player_x player_y distance err_x err_y).hesitation_timer = p.hesitation_timer := by simp only [Predator.calculate_target]; split_ifs <;> rfl

@[simp] theorem limitSpeed_center_x (p : Predator) :
    (limitSpeed p).center_x = p.center_x := by simp only [limitSpeed]; split_ifs <;> rfl

@[simp] theorem limitSpeed_center_y (p : Predator) :
    (limitSpeed p).center_y = p.center_y := by simp only [limitSpeed]; split_ifs <;> rfl

@[simp] theorem limitSpeed_max_speed (p : Predator) :
    (limitSpeed p).max_speed = p.max_speed := by simp only [limitSpeed]; split_ifs <;> rfl

@[simp] theorem limitSpeed_size (p : Predator) :
    (limitSpeed p).size = p.size := by simp only [limitSpeed]; split_ifs <;> rfl

@[simp] theorem limitSpeed_state (p : Predator) :
    (limitSpeed p).state = p.state := by simp only [limitSpeed]; split_ifs <;> rfl

@[simp] theorem limitSpeed_is_hesitating (p : Predator) :
    (limitSpeed p).is_hesitating = p.is_hesitating := by simp only [limitSpeed]; split_ifs <;> rfl

@[simp] theorem limitSpeed_hesitation_timer (p : Predator) :
    (limitSpeed p).hesitation_timer = p.hesitation_timer := by simp only [limitSpeed]; split_ifs <;> rfl

@[simp] theorem limitSpeed_target_x (p : Predator) :
    (limitSpeed p).target_x = p.target_x := by simp only [limitSpeed]; split_ifs <;> rfl

@[simp] theorem limitSpeed_target_y (p : Predator) :
    (limitSpeed p).target_y = p.target_y := by simp only [limitSpeed]; split_ifs <;> rfl

@[simp] theorem limitSpeed_acceleration (p : Predator) :
    (limitSpeed p).acceleration = p.acceleration := by simp only [limitSpeed]; split_ifs <;> rfl

@[simp] theorem move_towards_target_center_x (p : Predator) (delta_time : ℝ) :
    (p.move_towards_target delta_time).center_x = p.center_x := by simp only [Predator.move_towards_target]; split_ifs <;> simp

@[simp] theorem move_towards_target_center_y (p : Predator) (delta_time : ℝ) :
    (p.move_towards_target delta_time).center_y = p.center_y := by simp only [Predator.move_towards_target]; split_ifs <;> simp

@[simp] theorem move_towards_target_max_speed (p : Predator) (delta_time : ℝ) :
    (p.move_towards_target delta_time).max_speed = p.max_speed := by simp only [Predator.move_towards_target]; split_ifs <;> simp

@[simp] theorem move_towards_target_size (p : Predator) (delta_time : ℝ) :
    (p.move_towards_target delta_time).size = p.size := by simp only [Predator.move_towards_target]; split_ifs <;> simp

@[simp] theorem move_towards_target_state (p : Predator) (delta_time : ℝ) :
    (p.move_towards_target delta_time).state = p.state := by simp only [Predator.move_towards_target]; split_ifs <;> simp

@[simp] theorem move_towards_target_is_hesitating (p : Predator) (delta_time : ℝ) :
    (p.move_towards_target delta_time).is_hesitating = p.is_hesitating := by simp only [Predator.move_towards_target]; split_ifs <;> simp

@[simp] theorem move_towards_target_hesitation_timer (p : Predator) (delta_time : ℝ) :
    (p.move_towards_target delta_time).hesitation_timer = p.hesitation_timer := by simp only [Predator.move_towards_target]; split_ifs <;> simp

@[simp] theorem applyMovement_center_x (p : Predator) (delta_time : ℝ) :
    (applyMovement p delta_time).center_x = p.center_x := by simp only [applyMovement]; split_ifs <;> simp

@[simp] theorem applyMovement_center_y (p : Predator) (delta_time : ℝ) :
    (applyMovement p delta_time).center_y = p.center_y := by simp only [applyMovement]; split_ifs <;> simp

@[simp] theorem applyMovement_max_speed (p : Predator) (delta_time : ℝ) :
    (applyMovement p delta_time).max_speed = p.max_speed := by simp only [applyMovement]; split_ifs <;> simp

@[simp] theorem applyMovement_size (p : Predator) (delta_time : ℝ) :
    (applyMovement p delta_time).size = p.size := by simp only [applyMovement]; split_ifs <;> simp

@[simp] theorem applyMovement_state (p : Predator) (delta_time : ℝ) :
    (applyMovement p delta_time).state = p.state := by simp only [applyMovement]; split_ifs <;> simp

@[simp] theorem applyMovement_is_hesitating (p : Predator) (delta_time : ℝ) :
    (applyMovement p delta_time).is_hesitating = p.is_hesitating := by simp only [applyMovement]; split_ifs <;> simp

@[simp] theorem applyMovement_hesitation_timer (p : Predator) (delta_time : ℝ) :
    (applyMovement p delta_time).hesitation_timer = p.hesitation_timer := by simp only [applyMovement]; split_ifs <;> simp

@[simp] theorem integratePosition_velocity_x (p : Predator) (delta_time : ℝ) :
    (integratePosition p delta_time).velocity_x = p.velocity_x := rfl

@[simp] theorem integratePosition_velocity_y (p : Predator) (delta_time : ℝ) :
    (integratePosition p delta_time).velocity_y = p.velocity_y := rfl

@[simp] theorem integratePosition_max_speed (p : Predator) (delta_time : ℝ) :
    (integratePosition p delta_time).max_speed = p.max_speed := rfl

@[simp] theorem integratePosition_size (p : Predator) (delta_time : ℝ) :
    (integratePosition p delta_time).size = p.size := rfl

@[simp] theorem integratePosition_state (p : Predator) (delta_time : ℝ) :
    (integratePosition p delta_time).state = p.state := rfl

@[simp] theorem integratePosition_is_hesitating (p : Predator) (delta_time : ℝ) :
    (integratePosition p delta_time).is_hesitating = p.is_hesitating := rfl

@[simp] theorem integratePosition_hesitation_timer (p : Predator) (delta_time : ℝ) :
    (integratePosition p delta_time).hesitation_timer = p.hesitation_timer := rfl

@[simp] theorem wallX_center_y (p : Predator) (window_width : ℝ) :
    (wallX p window_width).center_y = p.center_y := by simp only [wallX]; split_ifs <;> rfl

@[simp] theorem wallX_velocity_y (p : Predator) (window_width : ℝ) :
    (wallX p window_width).velocity_y = p.velocity_y := by simp only [wallX]; split_ifs <;> rfl

@[simp] theorem wallX_max_speed (p : Predator) (window_width : ℝ) :
    (wallX p window_width).max_speed = p.max_speed := by simp only [wallX]; split_ifs <;> rfl

@[simp] theorem wallX_size (p : Predator) (window_width : ℝ) :
    (wallX p window_width).size = p.size := by simp only [wallX]; split_ifs <;> rfl

@[simp] theorem wallX_state (p : Predator) (window_width : ℝ) :
    (wallX p window_width).state = p.state := by simp only [wallX]; split_ifs <;> rfl

@[simp] theorem wallX_is_hesitating (p : Predator) (window_width : ℝ) :
    (wallX p window_width).is_hesitating = p.is_hesitating := by simp only [wallX]; split_ifs <;> rfl

@[simp] theorem wallX_hesitation_timer (p : Predator) (window_width : ℝ) :
    (wallX p window_width).hesitation_timer = p.hesitation_timer := by simp only [wallX]; split_ifs <;> rfl

@[simp] theorem wallY_center_x (p : Predator) (window_height : ℝ) :
    (wallY p window_height).center_x = p.center_x := by simp only [wallY]; split_ifs <;> rfl

@[simp] theorem wallY_velocity_x (p : Predator) (window_height : ℝ) :
    (wallY p window_height).velocity_x = p.velocity_x := by simp only [wallY]; split_ifs <;> rfl

@[simp] theorem wallY_max_speed (p : Predator) (window_height : ℝ) :
    (wallY p window_height).max_speed = p.max_speed := by simp only [wallY]; split_ifs <;> rfl

@[simp] theorem wallY_size (p : Predator) (window_height : ℝ) :
    (wallY p window_height).size = p.size := by simp only [wallY]; split_ifs <;> rfl

@[simp] theorem wallY_state (p : Predator) (window_height : ℝ) :
    (wallY p window_height).state = p.state := by simp only [wallY]; split_ifs <;> rfl

@[simp] theorem wallY_is_hesitating (p : Predator) (window_height : ℝ) :
    (wallY p window_height).is_hesitating = p.is_hesitating := by simp only [wallY]; split_ifs <;> rfl

@[simp] theorem wallY_hesitation_timer (p : Predator) (window_height : ℝ) :
    (wallY p window_height).hesitation_timer = p.hesitation_timer := by simp only [wallY]; split_ifs <;> rfl

@[simp] theorem handle_wall_collisions_max_speed (p : Predator) (window_width window_height : ℝ) :
    (p.handle_wall_collisions window_width window_height).max_speed = p.max_speed := by simp [Predator.handle_wall_collisions]

@[simp] theorem handle_wall_collisions_size (p : Predator) (window_width window_height : ℝ) :
    (p.handle_wall_collisions window_width window_height).size = p.size := by simp [Predator.handle_wall_collisions]

@[simp] theorem handle_wall_collisions_state (p : Predator) (window_width window_height : ℝ) :
    (p.handle_wall_collisions window_width window_height).state = p.state := by simp [Predator.handle_wall_collisions]

@[simp] theorem handle_wall_collisions_is_hesitating (p : Predator) (window_width window_height : ℝ) :
    (p.handle_wall_collisions window_width window_height).is_hesitating = p.is_hesitating := by simp [Predator.handle_wall_collisions]

@[simp] theorem handle_wall_collisions_hesitation_timer (p : Predator) (window_width window_height : ℝ) :
    (p.handle_wall_collisions window_width window_height).hesitation_timer = p.hesitation_timer := by simp [Predator.handle_wall_collisions]

@[simp] theorem updateRotation_center_x (p : Predator) :
    (updateRotation p).center_x = p.center_x := by simp only [updateRotation]; split_ifs <;> rfl

@[simp] theorem updateRotation_center_y (p : Predator) :
    (updateRotation p).center_y = p.center_y := by simp only [updateRotation]; split_ifs <;> rfl

@[simp] theorem updateRotation_velocity_x (p : Predator) :
    (updateRotation p).velocity_x = p.velocity_x := by simp only [updateRotation]; split_ifs <;> rfl

@[simp] theorem updateRotation_velocity_y (p : Predator) :
    (updateRotation p).velocity_y = p.velocity_y := by simp only [updateRotation]; split_ifs <;> rfl

@[simp] theorem updateRotation_max_speed (p : Predator) :
    (updateRotation p).max_speed = p.max_speed := by simp only [updateRotation]; split_ifs <;> rfl

@[simp] theorem updateRotation_size (p : Predator) :
    (updateRotation p).size = p.size := by simp only [updateRotation]; split_ifs <;> rfl

@[simp] theorem updateRotation_state (p : Predator) :
    (updateRotation p).state = p.state := by simp only [updateRotation]; split_ifs <;> rfl

@[simp] theorem updateRotation_is_hesitating (p : Predator) :
    (updateRotation p).is_hesitating = p.is_hesitating := by simp only [updateRotation]; split_ifs <;> rfl

@[simp] theorem updateRotation_hesitation_timer (p : Predator) :
    (updateRotation p).hesitation_timer = p.hesitation_timer := by simp only [updateRotation]; split_ifs <;> rfl

@[simp] theorem tickTimers_hesitation_timer (p : Predator) (delta_time : ℝ) :
    (tickTimers p delta_time).hesitation_timer = p.hesitation_timer + delta_time := rfl


/-! ### Further step-behaviour lemmas -/

@[simp] theorem integratePosition_center_x (p : Predator) (delta_time : ℝ) :
    (integratePosition p delta_time).center_x
      = p.center_x + p.velocity_x * delta_time := rfl

@[simp] theorem integratePosition_center_y (p : Predator) (delta_time : ℝ) :
    (integratePosition p delta_time).center_y
      = p.center_y + p.velocity_y * delta_time := rfl

theorem hesitationEntry_eq_self (p : Predator) (roll : ℝ)
    (h : ¬ p.hesitation_timer > roll) : hesitationEntry p roll = p := by
  rw [hesitationEntry, if_neg h]

theorem hesitationEntry_fires (p : Predator) (roll : ℝ)
    (h : p.hesitation_timer > roll) :
    hesitationEntry p roll = { p with is_hesitating := true, hesitation_timer := 0 } := by
  rw [hesitationEntry, if_pos h]

theorem hesitationExit_eq_self (p : Predator) (roll : ℝ)
    (h : ¬ (p.is_hesitating = true ∧ p.hesitation_timer > roll)) :
    hesitationExit p roll = p := by
  rw [hesitationExit, if_neg h]

theorem applyMovement_velocity_of_hesitating (p : Predator) (delta_time : ℝ)
    (h : p.is_hesitating = true) :
    (applyMovement p delta_time).velocity_x = p.velocity_x * 0.5 ∧
    (applyMovement p delta_time).velocity_y = p.velocity_y * 0.5 := by
  rw [applyMovement, if_pos h]; exact ⟨rfl, rfl⟩

theorem wallX_id_of_inside (p : Predator) (window_width : ℝ)
    (h1 : p.size / 2 < p.center_x) (h2 : p.center_x < window_width - p.size / 2) :
    wallX p window_width = p := by
  rw [wallX]
  rw [if_neg (not_le.mpr h1), if_neg (not_le.mpr h2)]

theorem wallY_id_of_inside (p : Predator) (window_height : ℝ)
    (h1 : p.size / 2 < p.center_y) (h2 : p.center_y < window_height - p.size / 2) :
    wallY p window_height = p := by
  rw [wallY]
  rw [if_neg (not_le.mpr h1), if_neg (not_le.mpr h2)]

theorem wallX_center_x_bounds (p : Predator) (window_width : ℝ)
    (hW : p.size ≤ window_width) :
    p.size / 2 ≤ (wallX p window_width).center_x ∧
    (wallX p window_width).center_x ≤ window_width - p.size / 2 := by
  simp only [wallX]
  split_ifs with h1 h2 <;> refine ⟨?_, ?_⟩ <;> (try simp) <;> linarith

theorem wallY_center_y_bounds (p : Predator) (window_height : ℝ)
    (hH : p.size ≤ window_height) :
    p.size / 2 ≤ (wallY p window_height).center_y ∧
    (wallY p window_height).center_y ≤ window_height - p.size / 2 := by
  simp only [wallY]
  split_ifs with h1 h2 <;> refine ⟨?_, ?_⟩ <;> (try simp) <;> linarith

theorem wallX_velocity_x_sq (p : Predator) (window_width : ℝ) :
    (wallX p window_width).velocity_x ^ 2 ≤ p.velocity_x ^ 2 := by
  simp only [wallX]
  split_ifs <;> simp <;> nlinarith [sq_abs p.velocity_x, sq_nonneg p.velocity_x]

theorem wallY_velocity_y_sq (p : Predator) (window_height : ℝ) :
    (wallY p window_height).velocity_y ^ 2 ≤ p.velocity_y ^ 2 := by
  simp only [wallY]
  split_ifs <;> simp <;> nlinarith [sq_abs p.velocity_y, sq_nonneg p.velocity_y]

/-! ### Velocity-magnitude bounds through the steering and wall steps -/

theorem sqrt_pow_two_add (a b : ℝ) :
    Real.sqrt (a ^ 2 + b ^ 2) = Real.sqrt (a * a + b * b) := by
  rw [pow_two, pow_two]

/-- The speed clamp of `_move_towards_target` (lines 191-195) produces a
    velocity of magnitude exactly `max_speed`. -/
theorem clamp_norm (vx vy M : ℝ) (hM : 0 ≤ M)
    (hm : Real.sqrt (vx * vx + vy * vy) > M) :
    Real.sqrt ((vx / Real.sqrt (vx * vx + vy * vy) * M) ^ 2 +
               (vy / Real.sqrt (vx * vx + vy * vy) * M) ^ 2) = M := by
  set m := Real.sqrt (vx * vx + vy * vy) with hmdef
  have h0 : (0:ℝ) ≤ vx * vx + vy * vy := by
    nlinarith [mul_self_nonneg vx, mul_self_nonneg vy]
  have hmpos : 0 < m := lt_of_le_of_lt hM hm
  have hsq : m ^ 2 = vx * vx + vy * vy := by rw [hmdef]; exact Real.sq_sqrt h0
  have hne : m ^ 2 ≠ 0 := pow_ne_zero 2 (ne_of_gt hmpos)
  have key : (vx / m * M) ^ 2 + (vy / m * M) ^ 2 = M ^ 2 := by
    have expand : (vx / m * M) ^ 2 + (vy / m * M) ^ 2
        = (vx * vx + vy * vy) / m ^ 2 * M ^ 2 := by ring
    rw [expand, ← hsq, div_self hne, one_mul]
  rw [key, Real.sqrt_sq hM]

/-- Halving both velocity components cannot raise the magnitude above a
    bound it already satisfies. -/
theorem halve_speed_le (vx vy M : ℝ) (h : Real.sqrt (vx ^ 2 + vy ^ 2) ≤ M) :
    Real.sqrt ((vx * 0.5) ^ 2 + (vy * 0.5) ^ 2) ≤ M := by
  have h0 : (0:ℝ) ≤ vx ^ 2 + vy ^ 2 := by positivity
  have hs : Real.sqrt ((vx * 0.5) ^ 2 + (vy * 0.5) ^ 2)
      = Real.sqrt (vx ^ 2 + vy ^ 2) * 0.5 := by
    rw [show (vx * 0.5) ^ 2 + (vy * 0.5) ^ 2 = (vx ^ 2 + vy ^ 2) * (0.5:ℝ) ^ 2 by ring,
        Real.sqrt_mul h0, Real.sqrt_sq (by norm_num)]
  rw [hs]
  nlinarith [Real.sqrt_nonneg (vx ^ 2 + vy ^ 2)]

/-- The `limitSpeed` clamp leaves the velocity magnitude at or below
    `max_speed`. -/
theorem limitSpeed_speed_le (q : Predator) (hM : 0 ≤ q.max_speed) :
    Real.sqrt ((limitSpeed q).velocity_x ^ 2 + (limitSpeed q).velocity_y ^ 2)
      ≤ q.max_speed := by
  rw [limitSpeed]
  split_ifs with hc
  · dsimp only
    exact le_of_eq (clamp_norm _ _ _ hM hc)
  · rw [sqrt_pow_two_add]
    exact not_lt.mp hc

/-- `_move_towards_target` keeps the velocity magnitude at or below
    `max_speed` (the final clamp, lines 191-195). -/
theorem move_towards_target_speed_le (p : Predator) (delta_time : ℝ)
    (h : Real.sqrt (p.velocity_x ^ 2 + p.velocity_y ^ 2) ≤ p.max_speed) :
    Real.sqrt ((p.move_towards_target delta_time).velocity_x ^ 2 +
               (p.move_towards_target delta_time).velocity_y ^ 2) ≤ p.max_speed := by
  have hM : 0 ≤ p.max_speed := le_trans (Real.sqrt_nonneg _) h
  have hQ : ∀ q : Predator, q.max_speed = p.max_speed →
      Real.sqrt ((limitSpeed q).velocity_x ^ 2 + (limitSpeed q).velocity_y ^ 2)
        ≤ p.max_speed := by
    intro q hq
    have hle := limitSpeed_speed_le q (hq ▸ hM)
    rwa [hq] at hle
  simp only [Predator.move_towards_target]
  by_cases hd : Real.sqrt ((p.target_x - p.center_x) * (p.target_x - p.center_x) +
      (p.target_y - p.center_y) * (p.target_y - p.center_y)) > 1.0
  · rw [if_pos hd]
    exact hQ _ rfl
  · rw [if_neg hd]
    exact h

/-- Lines 110-115: both the steering branch and the hesitation branch keep
    the velocity magnitude at or below `max_speed`. -/
theorem applyMovement_speed_le (p : Predator) (delta_time : ℝ)
    (h : Real.sqrt (p.velocity_x ^ 2 + p.velocity_y ^ 2) ≤ p.max_speed) :
    Real.sqrt ((applyMovement p delta_time).velocity_x ^ 2 +
               (applyMovement p delta_time).velocity_y ^ 2) ≤ p.max_speed := by
  rw [applyMovement]
  split_ifs with hb
  · dsimp only
    exact halve_speed_le _ _ _ h
  · exact move_towards_target_speed_le p delta_time h

/-- The wall bounce (restitution 0.8 on single components) never increases
    the velocity magnitude. -/
theorem handle_wall_collisions_speed_le (p : Predator)
    (window_width window_height : ℝ) :
    Real.sqrt ((p.handle_wall_collisions window_width window_height).velocity_x ^ 2 +
               (p.handle_wall_collisions window_width window_height).velocity_y ^ 2) ≤
    Real.sqrt (p.velocity_x ^ 2 + p.velocity_y ^ 2) := by
  apply Real.sqrt_le_sqrt
  rw [Predator.handle_wall_collisions]
  have hx : (wallY (wallX p window_width) window_height).velocity_x ^ 2
      ≤ p.velocity_x ^ 2 := by
    rw [wallY_velocity_x]; exact wallX_velocity_x_sq p window_width
  have hy : (wallY (wallX p window_width) window_height).velocity_y ^ 2
      ≤ p.velocity_y ^ 2 := by
    have h1 := wallY_velocity_y_sq (wallX p window_width) window_height
    simpa using h1
  linarith

/-- **C1**: for every call to `Predator.update` with `dt > 0`, if
    `|velocity| <= max_speed` holds before the call then it holds after
    the call: the steering step clamps the magnitude to `max_speed`, the
    hesitation branch halves both components, and the wall bounce scales a
    component by `0.8`, none of which can raise the magnitude above
    `max_speed`. -/
theorem C1_velocity_magnitude_invariant (p : Predator)
    (delta_time player_x player_y window_width window_height : ℝ) (r : UpdateRand)
    (hdt : 0 < delta_time)
    (h : Real.sqrt (p.velocity_x ^ 2 + p.velocity_y ^ 2) ≤ p.max_speed) :
    Real.sqrt
        ((p.update delta_time player_x player_y window_width window_height r).velocity_x ^ 2 +
         (p.update delta_time player_x player_y window_width window_height r).velocity_y ^ 2)
      ≤ p.max_speed := by
  have key : ∀ q : Predator, q.velocity_x = p.velocity_x → q.velocity_y = p.velocity_y →
      q.max_speed = p.max_speed →
      Real.sqrt ((applyMovement q delta_time).velocity_x ^ 2 +
                 (applyMovement q delta_time).velocity_y ^ 2) ≤ p.max_speed := by
    intro q h1 h2 h3
    have hq := applyMovement_speed_le q delta_time (by rw [h1, h2, h3]; exact h)
    rwa [h3] at hq
  simp only [Predator.update]
  simp only [updateRotation_velocity_x, updateRotation_velocity_y]
  refine le_trans (handle_wall_collisions_speed_le _ _ _) ?_
  simp only [integratePosition_velocity_x, integratePosition_velocity_y]
  exact key _ (by simp) (by simp) (by simp)

/-- A baseline concrete predator state used by the concrete witnesses: a
    freshly spawned predator at the window centre, with reaction delay 0.3,
    accuracy 0.9, patrol radius 100 and patrol angle 0. -/
noncomputable def Pbase : Predator := Predator.init 480 270 0.3 0.9 100 0

/-- Witness for C1 at a concrete call. -/
theorem C1_velocity_magnitude_invariant_witness :
    (0:ℝ) < 1 ∧
    Real.sqrt (Pbase.velocity_x ^ 2 + Pbase.velocity_y ^ 2) ≤ Pbase.max_speed ∧
    Real.sqrt
        ((Pbase.update 1 480 270 960 540 ⟨5, 0.5, 0, 0⟩).velocity_x ^ 2 +
         (Pbase.update 1 480 270 960 540 ⟨5, 0.5, 0, 0⟩).velocity_y ^ 2)
      ≤ Pbase.max_speed :=
  ⟨by norm_num,
   by norm_num [Pbase, Predator.init, Real.sqrt_zero],
   C1_velocity_magnitude_invariant Pbase 1 480 270 960 540 ⟨5, 0.5, 0, 0⟩ (by norm_num)
     (by norm_num [Pbase, Predator.init, Real.sqrt_zero])⟩

/-! ### Wall clamping (C2) -/

/-- `_handle_wall_collisions` leaves both coordinates inside the band
    `[half_size, bound - half_size]` whenever each bound is at least
    `size`. -/
theorem handle_wall_collisions_center_bounds (q : Predator)
    (window_width window_height : ℝ)
    (hW : q.size ≤ window_width) (hH : q.size ≤ window_height) :
    (q.size / 2 ≤ (q.handle_wall_collisions window_width window_height).center_x ∧
     (q.handle_wall_collisions window_width window_height).center_x
        ≤ window_width - q.size / 2) ∧
    (q.size / 2 ≤ (q.handle_wall_collisions window_width window_height).center_y ∧
     (q.handle_wall_collisions window_width window_height).center_y
        ≤ window_height - q.size / 2) := by
  rw [Predator.handle_wall_collisions]
  constructor
  · rw [wallY_center_x]
    exact wallX_center_x_bounds q window_width hW
  · have hb := wallY_center_y_bounds (wallX q window_width) window_height
      (by simpa using hH)
    simpa using hb

/-- **C2**: for every call to `Predator.update` with `dt > 0` and bounds
    satisfying `window_width >= size` and `window_height >= size`, after the
    call `position.x` lies in `[half_size, window_width - half_size]` and
    `position.y` lies in `[half_size, window_height - half_size]`, where
    `half_size = size / 2`. -/
theorem C2_position_clamped (p : Predator)
    (delta_time player_x player_y window_width window_height : ℝ) (r : UpdateRand)
    (hdt : 0 < delta_time)
    (hW : p.size ≤ window_width) (hH : p.size ≤ window_height) :
    (p.size / 2 ≤ (p.update delta_time player_x player_y window_width window_height r).center_x ∧
     (p.update delta_time player_x player_y window_width window_height r).center_x
        ≤ window_width - p.size / 2) ∧
    (p.size / 2 ≤ (p.update delta_time player_x player_y window_width window_height r).center_y ∧
     (p.update delta_time player_x player_y window_width window_height r).center_y
        ≤ window_height - p.size / 2) := by
  have key : ∀ q : Predator, q.size = p.size →
      (p.size / 2 ≤ (q.handle_wall_collisions window_width window_height).center_x ∧
       (q.handle_wall_collisions window_width window_height).center_x
          ≤ window_width - p.size / 2) ∧
      (p.size / 2 ≤ (q.handle_wall_collisions window_width window_height).center_y ∧
       (q.handle_wall_collisions window_width window_height).center_y
          ≤ window_height - p.size / 2) := by
    intro q hq
    have hb := handle_wall_collisions_center_bounds q window_width window_height
      (by rw [hq]; exact hW) (by rw [hq]; exact hH)
    rwa [hq] at hb
  simp only [Predator.update]
  simp only [updateRotation_center_x, updateRotation_center_y]
  exact key _ (by simp)

/-- Witness for C2 at a concrete call. -/
theorem C2_position_clamped_witness :
    (0:ℝ) < 1 ∧ Pbase.size ≤ 960 ∧ Pbase.size ≤ 540 ∧
    ((Pbase.size / 2 ≤ (Pbase.update 1 100 100 960 540 ⟨5, 0.5, 0, 0⟩).center_x ∧
      (Pbase.update 1 100 100 960 540 ⟨5, 0.5, 0, 0⟩).center_x ≤ 960 - Pbase.size / 2) ∧
     (Pbase.size / 2 ≤ (Pbase.update 1 100 100 960 540 ⟨5, 0.5, 0, 0⟩).center_y ∧
      (Pbase.update 1 100 100 960 540 ⟨5, 0.5, 0, 0⟩).center_y ≤ 540 - Pbase.size / 2)) :=
  ⟨by norm_num, by norm_num [Pbase, Predator.init], by norm_num [Pbase, Predator.init],
   C2_position_clamped Pbase 1 100 100 960 540 ⟨5, 0.5, 0, 0⟩ (by norm_num)
     (by norm_num [Pbase, Predator.init]) (by norm_num [Pbase, Predator.init])⟩

/-! ### State transitions (C3, C4) -/

theorem stateTransition_state_close (p : Predator) (distance : ℝ)
    (h : distance < 100) :
    (stateTransition p distance).state = "hunting" := by
  rw [stateTransition, if_pos h]

theorem stateTransition_state_hunting_far (p : Predator) (distance : ℝ)
    (hs : p.state = "hunting") (h : distance > 200) :
    (stateTransition p distance).state = "intercepting" := by
  rw [stateTransition, if_neg (by push_neg; linarith), if_pos ⟨h, hs⟩]

theorem stateTransition_state_of_hunting (p : Predator) (distance : ℝ)
    (hs : p.state = "hunting") :
    (stateTransition p distance).state = "hunting" ∨
    (stateTransition p distance).state = "intercepting" := by
  rw [stateTransition]
  split_ifs with h1 h2 h3
  · exact Or.inl rfl
  · exact Or.inr rfl
  · exact absurd ⟨by linarith, hs⟩ h2
  · exact Or.inl hs

/-- **C3**: for every prior state, a single call to `Predator.update` in
    which the Euclidean distance from the predator's position to the target
    position is strictly less than 100 leaves the state equal to
    `"hunting"`. -/
theorem C3_close_distance_forces_hunting (p : Predator)
    (delta_time player_x player_y window_width window_height : ℝ) (r : UpdateRand)
    (hd : Real.sqrt ((p.center_x - player_x) ^ 2 + (p.center_y - player_y) ^ 2) < 100) :
    (p.update delta_time player_x player_y window_width window_height r).state
      = "hunting" := by
  simp only [Predator.update]
  simp only [updateRotation_state, handle_wall_collisions_state, integratePosition_state,
    applyMovement_state, calculate_target_state, hesitationExit_state, hesitationEntry_state]
  apply stateTransition_state_close
  simpa [distance_to_player] using hd

/-- Witness for C3 at a concrete call (prior state `"hunting"`). -/
theorem C3_close_distance_forces_hunting_witness :
    Real.sqrt ((Pbase.center_x - 480) ^ 2 + (Pbase.center_y - 270) ^ 2) < 100 ∧
    (Pbase.update 1 480 270 960 540 ⟨5, 0.5, 0, 0⟩).state = "hunting" :=
  ⟨by norm_num [Pbase, Predator.init, Real.sqrt_zero],
   C3_close_distance_forces_hunting Pbase 1 480 270 960 540 ⟨5, 0.5, 0, 0⟩
     (by norm_num [Pbase, Predator.init, Real.sqrt_zero])⟩

/-- **C4**: if the state is `"hunting"` before a call to `Predator.update`
    and the distance to the target is strictly greater than 200, the state
    after that call is `"intercepting"`; and no single update call ever
    takes the state directly from `"hunting"` to `"patrolling"`, whatever
    the distance. -/
theorem C4_hunting_transition (p : Predator)
    (delta_time player_x player_y window_width window_height : ℝ) (r : UpdateRand)
    (hs : p.state = "hunting") :
    (Real.sqrt ((p.center_x - player_x) ^ 2 + (p.center_y - player_y) ^ 2) > 200 →
       (p.update delta_time player_x player_y window_width window_height r).state
         = "intercepting") ∧
    (p.update delta_time player_x player_y window_width window_height r).state
      ≠ "patrolling" := by
  simp only [Predator.update]
  simp only [updateRotation_state, handle_wall_collisions_state, integratePosition_state,
    applyMovement_state, calculate_target_state, hesitationExit_state, hesitationEntry_state]
  have hs' : (perceive (tickTimers p delta_time) player_x player_y).state = "hunting" := by
    simp [hs]
  constructor
  · intro hfar
    apply stateTransition_state_hunting_far _ _ hs'
    simpa [distance_to_player] using hfar
  · rcases stateTransition_state_of_hunting
        (perceive (tickTimers p delta_time) player_x player_y)
        (distance_to_player (perceive (tickTimers p delta_time) player_x player_y)
          player_x player_y) hs' with hh | hi
    · rw [hh]; decide
    · rw [hi]; decide

/-- Witness for C4 at a concrete call (distance 300 > 200). -/
theorem C4_hunting_transition_witness :
    Pbase.state = "hunting" ∧
    Real.sqrt ((Pbase.center_x - 780) ^ 2 + (Pbase.center_y - 270) ^ 2) > 200 ∧
    (Pbase.update 1 780 270 960 540 ⟨5, 0.5, 0, 0⟩).state = "intercepting" ∧
    (Pbase.update 1 780 270 960 540 ⟨5, 0.5, 0, 0⟩).state ≠ "patrolling" := by
  have hd : Real.sqrt ((Pbase.center_x - 780) ^ 2 + (Pbase.center_y - 270) ^ 2) = 300 := by
    rw [show (Pbase.center_x - 780) ^ 2 + (Pbase.center_y - 270) ^ 2 = (300:ℝ) ^ 2 by
          norm_num [Pbase, Predator.init],
        Real.sqrt_sq (by norm_num)]
  have hthm := C4_hunting_transition Pbase 1 780 270 960 540 ⟨5, 0.5, 0, 0⟩ rfl
  exact ⟨rfl, by rw [hd]; norm_num, hthm.1 (by rw [hd]; norm_num), hthm.2⟩

/-! ### Wall-bounce branch behaviour (C7) -/

theorem wallX_left (p : Predator) (window_width : ℝ)
    (h : p.center_x ≤ p.size / 2) :
    wallX p window_width
      = { p with center_x := p.size / 2, velocity_x := |p.velocity_x| * 0.8 } := by
  simp only [wallX]
  rw [if_pos h]

theorem wallX_right (p : Predator) (window_width : ℝ)
    (h1 : ¬ p.center_x ≤ p.size / 2) (h2 : p.center_x ≥ window_width - p.size / 2) :
    wallX p window_width
      = { p with center_x := window_width - p.size / 2
                 velocity_x := -|p.velocity_x| * 0.8 } := by
  simp only [wallX]
  rw [if_neg h1, if_pos h2]

theorem wallY_bottom (p : Predator) (window_height : ℝ)
    (h : p.center_y ≤ p.size / 2) :
    wallY p window_height
      = { p with center_y := p.size / 2, velocity_y := |p.velocity_y| * 0.8 } := by
  simp only [wallY]
  rw [if_pos h]

theorem wallY_top (p : Predator) (window_height : ℝ)
    (h1 : ¬ p.center_y ≤ p.size / 2) (h2 : p.center_y ≥ window_height - p.size / 2) :
    wallY p window_height
      = { p with center_y := window_height - p.size / 2
                 velocity_y := -|p.velocity_y| * 0.8 } := by
  simp only [wallY]
  rw [if_neg h1, if_pos h2]

/-- **C7**: `_handle_wall_collisions` receives the post-integration state of
    `update` (and nothing after it modifies position or velocity).  If that
    state has crossed a wall while moving towards it with speed `v > 0`, the
    position is clamped to the wall and the velocity component is reflected
    away from the wall with magnitude `0.8 * v` — stated for all four
    walls. -/
theorem C7_wall_bounce (q : Predator) (window_width window_height v : ℝ)
    (hv : 0 < v) :
    (q.center_x ≤ q.size / 2 → q.velocity_x = -v →
       (q.handle_wall_collisions window_width window_height).center_x = q.size / 2 ∧
       (q.handle_wall_collisions window_width window_height).velocity_x = 0.8 * v) ∧
    (q.size / 2 < q.center_x → q.center_x ≥ window_width - q.size / 2 →
       q.velocity_x = v →
       (q.handle_wall_collisions window_width window_height).center_x
          = window_width - q.size / 2 ∧
       (q.handle_wall_collisions window_width window_height).velocity_x
          = -(0.8 * v)) ∧
    (q.center_y ≤ q.size / 2 → q.velocity_y = -v →
       (q.handle_wall_collisions window_width window_height).center_y = q.size / 2 ∧
       (q.handle_wall_collisions window_width window_height).velocity_y = 0.8 * v) ∧
    (q.size / 2 < q.center_y → q.center_y ≥ window_height - q.size / 2 →
       q.velocity_y = v →
       (q.handle_wall_collisions window_width window_height).center_y
          = window_height - q.size / 2 ∧
       (q.handle_wall_collisions window_width window_height).velocity_y
          = -(0.8 * v)) := by
  refine ⟨?_, ?_, ?_, ?_⟩
  · intro h1 h2
    have hX := wallX_left q window_width h1
    constructor
    · rw [Predator.handle_wall_collisions, wallY_center_x, hX]
    · rw [Predator.handle_wall_collisions, wallY_velocity_x, hX]
      dsimp only
      rw [h2, abs_neg, abs_of_pos hv]
      ring
  · intro h1 h2 h3
    have hX := wallX_right q window_width (not_le.mpr h1) h2
    constructor
    · rw [Predator.handle_wall_collisions, wallY_center_x, hX]
    · rw [Predator.handle_wall_collisions, wallY_velocity_x, hX]
      dsimp only
      rw [h3, abs_of_pos hv]
      ring
  · intro h1 h2
    have hY := wallY_bottom (wallX q window_width) window_height (by simpa using h1)
    constructor
    · rw [Predator.handle_wall_collisions, hY]
      dsimp only
      simp
    · rw [Predator.handle_wall_collisions, hY]
      dsimp only
      rw [wallX_velocity_y, h2, abs_neg, abs_of_pos hv]
      ring
  · intro h1 h2 h3
    have hY := wallY_top (wallX q window_width) window_height
      (by simpa using not_le.mpr h1) (by simpa using h2)
    constructor
    · rw [Predator.handle_wall_collisions, hY]
      dsimp only
      simp
    · rw [Predator.handle_wall_collisions, hY]
      dsimp only
      rw [wallX_velocity_y, h3, abs_of_pos hv]
      ring

/-- Witness for C7, left wall: a predator at `x = 5` (half size 12) moving
    left at speed 30. -/
noncomputable def P7 : Predator := { Pbase with center_x := 5, velocity_x := -30 }

/-- Witness for C7 at a concrete left-wall bounce. -/
theorem C7_wall_bounce_witness :
    (0:ℝ) < 30 ∧ P7.center_x ≤ P7.size / 2 ∧ P7.velocity_x = -30 ∧
    ((P7.handle_wall_collisions 960 540).center_x = P7.size / 2 ∧
     (P7.handle_wall_collisions 960 540).velocity_x = 0.8 * 30) :=
  ⟨by norm_num, by norm_num [P7, Pbase, Predator.init],
   by norm_num [P7, Pbase, Predator.init],
   (C7_wall_bounce P7 960 540 30 (by norm_num)).1
     (by norm_num [P7, Pbase, Predator.init]) (by norm_num [P7, Pbase, Predator.init])⟩

/-! ### The collision reports (C8, C10) -/

/-- **C8**: `Predator.check_collision` returns `true` iff the Euclidean
    distance from the predator's position to the player is strictly less
    than `(size + player_size) / 2`; in particular it returns `true` at
    distance `(size + player_size) / 2 - 0.001` and `false` at
    `(size + player_size) / 2 + 0.001`.  (In this functional embedding the
    call returns only a `Bool`, so it cannot mutate any predator field.) -/
theorem C8_check_collision (p : Predator) (player_x player_y player_size : ℝ) :
    (p.check_collision player_x player_y player_size = true ↔
       Real.sqrt ((p.center_x - player_x) ^ 2 + (p.center_y - player_y) ^ 2)
         < (p.size + player_size) / 2) ∧
    (Real.sqrt ((p.center_x - player_x) ^ 2 + (p.center_y - player_y) ^ 2)
         = (p.size + player_size) / 2 - 0.001 →
       p.check_collision player_x player_y player_size = true) ∧
    (Real.sqrt ((p.center_x - player_x) ^ 2 + (p.center_y - player_y) ^ 2)
         = (p.size + player_size) / 2 + 0.001 →
       p.check_collision player_x player_y player_size = false) := by
  refine ⟨?_, ?_, ?_⟩
  · simp [Predator.check_collision]
  · intro hd
    simp only [Predator.check_collision, decide_eq_true_eq]
    rw [hd]
    linarith
  · intro hd
    simp only [Predator.check_collision, decide_eq_false_iff_not]
    rw [hd]
    push_neg
    linarith

/-- The predator position used by the C8 witness. -/
noncomputable def P8 : Predator := { Pbase with center_x := 0, center_y := 0 }

/-- Witness for C8: at distance `(24 + 0)/2 - 0.001 = 11.999` the collision
    report is `true`. -/
theorem C8_check_collision_witness :
    Real.sqrt ((P8.center_x - 11.999) ^ 2 + (P8.center_y - 0) ^ 2)
        = (P8.size + 0) / 2 - 0.001 ∧
    P8.check_collision 11.999 0 0 = true := by
  have hd : Real.sqrt ((P8.center_x - 11.999) ^ 2 + (P8.center_y - 0) ^ 2)
      = (P8.size + 0) / 2 - 0.001 := by
    rw [show (P8.center_x - 11.999) ^ 2 + (P8.center_y - 0) ^ 2 = (11.999:ℝ) ^ 2 by
          norm_num [P8, Pbase, Predator.init],
        Real.sqrt_sq (by norm_num)]
    norm_num [P8, Pbase, Predator.init]
  exact ⟨hd, (C8_check_collision P8 11.999 0 0).2.1 hd⟩

/-! ### Interception targeting (C9) -/

/-- **C9**: in the `"intercepting"` state, `_calculate_target` aims at
    `target_position + estimated_target_velocity * (distance / max_speed * 0.8)`,
    then adds a lateral offset of 50 units to whichever axis has the
    strictly smaller absolute estimated-velocity component, signed `+1`
    when the predator's coordinate on that axis is strictly below the
    target's, else `-1`; the per-call jitter term `err * (1 - accuracy)` is
    added afterwards on each axis. -/
theorem C9_intercepting_target (p : Predator)
    (player_x player_y distance err_x err_y : ℝ)
    (hs : p.state = "intercepting") :
    (|p.player_velocity_x| > |p.player_velocity_y| →
       (p.calculate_target player_x player_y distance err_x err_y).target_x
         = player_x + p.player_velocity_x * (distance / p.max_speed * 0.8)
           + err_x * (1.0 - p.accuracy) ∧
       (p.calculate_target player_x player_y distance err_x err_y).target_y
         = player_y + p.player_velocity_y * (distance / p.max_speed * 0.8)
           + 50 * (if p.center_y < player_y then (1:ℝ) else -1)
           + err_y * (1.0 - p.accuracy)) ∧
    (|p.player_velocity_x| < |p.player_velocity_y| →
       (p.calculate_target player_x player_y distance err_x err_y).target_x
         = player_x + p.player_velocity_x * (distance / p.max_speed * 0.8)
           + 50 * (if p.center_x < player_x then (1:ℝ) else -1)
           + err_x * (1.0 - p.accuracy) ∧
       (p.calculate_target player_x player_y distance err_x err_y).target_y
         = player_y + p.player_velocity_y * (distance / p.max_speed * 0.8)
           + err_y * (1.0 - p.accuracy)) := by
  constructor <;> intro hcmp
  · refine ⟨?_, ?_⟩ <;> simp [Predator.calculate_target, hs, hcmp]
  · have hcmp2 : ¬ |p.player_velocity_y| < |p.player_velocity_x| := lt_asymm hcmp
    refine ⟨?_, ?_⟩ <;> simp [Predator.calculate_target, hs, hcmp2]

/-- The predator used by the C9 witness: intercepting, with estimated
    target velocity (10, 3). -/
noncomputable def P9 : Predator :=
  { Pbase with state := "intercepting", player_velocity_x := 10, player_velocity_y := 3 }

/-- Witness for C9 at a concrete intercepting call (x-velocity dominant, so
    the 50-unit offset lands on the y axis). -/
theorem C9_intercepting_target_witness :
    P9.state = "intercepting" ∧ |P9.player_velocity_x| > |P9.player_velocity_y| ∧
    ((P9.calculate_target 100 100 150 0 0).target_x
        = 100 + P9.player_velocity_x * (150 / P9.max_speed * 0.8)
          + 0 * (1.0 - P9.accuracy) ∧
     (P9.calculate_target 100 100 150 0 0).target_y
        = 100 + P9.player_velocity_y * (150 / P9.max_speed * 0.8)
          + 50 * (if P9.center_y < 100 then (1:ℝ) else -1)
          + 0 * (1.0 - P9.accuracy)) := by
  have hcmp : |P9.player_velocity_x| > |P9.player_velocity_y| := by
    have h10 : P9.player_velocity_x = 10 := rfl
    have h3 : P9.player_velocity_y = 3 := rfl
    rw [h10, h3, abs_of_pos (by norm_num : (0:ℝ) < 10),
        abs_of_pos (by norm_num : (0:ℝ) < 3)]
    norm_num
  exact ⟨rfl, hcmp, (C9_intercepting_target P9 100 100 150 0 0 rfl).1 hcmp⟩

/-- The fruit used by the C10 disagreement example: a fruit of size 16 at
    (100, 100); the player square of size 16 at (112, 112) overlaps it on
    each axis (gap 12 < 16) although the Euclidean centre distance
    `sqrt 288 ≈ 16.97` exceeds 16. -/
noncomputable def fruitC : Fruit := { center_x := 100, center_y := 100, size := 16 }

/-- **C10**: `Fruit.check_collision` is the axis-separable square-overlap
    test `|cx - px| < fruit_size/2 + player_size/2` on both axes, and for
    some inputs it disagrees with a Euclidean-distance test with the same
    threshold: at `fruitC` vs a size-16 player at (112, 112) the box test
    reports `true` while the Euclidean distance is not below the
    threshold. -/
theorem C10_fruit_box_collision :
    (∀ (f : Fruit) (player_x player_y player_size : ℝ),
       f.check_collision player_x player_y player_size = true ↔
         (|f.center_x - player_x| < f.size / 2 + player_size / 2 ∧
          |f.center_y - player_y| < f.size / 2 + player_size / 2)) ∧
    (fruitC.check_collision 112 112 16 = true ∧
     ¬ Real.sqrt ((fruitC.center_x - 112) ^ 2 + (fruitC.center_y - 112) ^ 2)
         < (fruitC.size + 16) / 2) := by
  have hbox : ∀ (f : Fruit) (player_x player_y player_size : ℝ),
      f.check_collision player_x player_y player_size = true ↔
        (|f.center_x - player_x| < f.size / 2 + player_size / 2 ∧
         |f.center_y - player_y| < f.size / 2 + player_size / 2) := by
    intro f px py ps
    simp [Fruit.check_collision]
  refine ⟨hbox, ?_, ?_⟩
  · rw [hbox]
    norm_num [fruitC, abs_lt]
  · rw [not_lt]
    have h288 : (fruitC.center_x - 112) ^ 2 + (fruitC.center_y - 112) ^ 2 = (288:ℝ) := by
      norm_num [fruitC]
    rw [h288, show (fruitC.size + 16) / 2 = (16:ℝ) from by norm_num [fruitC],
        show (16:ℝ) = Real.sqrt 256 from by
          rw [show (256:ℝ) = 16 ^ 2 by norm_num, Real.sqrt_sq (by norm_num)]]
    exact Real.sqrt_le_sqrt (by norm_num)

/-- Witness for C10's overlap characterisation at a concrete input. -/
theorem C10_fruit_box_collision_witness :
    (⟨0, 0, 16⟩ : Fruit).check_collision 0 0 16 = true :=
  (C10_fruit_box_collision.1 ⟨0, 0, 16⟩ 0 0 16).mpr (by norm_num)

/-! ### Hesitation entry (C5) -/

/-- **C5** (amended): the hesitation-entry branch of `Predator.update`
    fires whenever the accumulated `hesitation_timer` (after `+= dt`)
    exceeds the freshly drawn threshold, regardless of whether
    `is_hesitating` is already true: it sets `is_hesitating` to true and
    resets the timer to 0 (renewing an ongoing hesitation).  When the
    threshold is not exceeded the branch does not fire, so a
    non-hesitating predator stays non-hesitating with its timer merely
    accumulated. -/
theorem C5_hesitation_entry_amended (p : Predator)
    (delta_time player_x player_y window_width window_height : ℝ) (r : UpdateRand)
    (hx0 : 0 ≤ r.hes_exit) :
    (p.hesitation_timer + delta_time > r.hes_entry →
       (p.update delta_time player_x player_y window_width window_height r).is_hesitating
           = true ∧
       (p.update delta_time player_x player_y window_width window_height r).hesitation_timer
           = 0) ∧
    (p.hesitation_timer + delta_time ≤ r.hes_entry → p.is_hesitating = false →
       (p.update delta_time player_x player_y window_width window_height r).is_hesitating
           = false ∧
       (p.update delta_time player_x player_y window_width window_height r).hesitation_timer
           = p.hesitation_timer + delta_time) := by
  simp only [Predator.update]
  simp only [updateRotation_is_hesitating, handle_wall_collisions_is_hesitating,
    integratePosition_is_hesitating, applyMovement_is_hesitating,
    calculate_target_is_hesitating, updateRotation_hesitation_timer,
    handle_wall_collisions_hesitation_timer, integratePosition_hesitation_timer,
    applyMovement_hesitation_timer, calculate_target_hesitation_timer]
  constructor
  · intro hfire
    rw [hesitationEntry_fires _ _ (by simpa using hfire)]
    rw [hesitationExit_eq_self _ _ (by simp; exact hx0)]
    exact ⟨rfl, rfl⟩
  · intro hno hfalse
    rw [hesitationEntry_eq_self _ _ (by simpa using hno)]
    rw [hesitationExit_eq_self _ _ (by simp [hfalse])]
    exact ⟨by simp [hfalse], by simp⟩

/-- Witness for the amended C5 at a concrete call (timer 0 + dt 4 exceeds
    the entry draw 3.5). -/
theorem C5_hesitation_entry_amended_witness :
    (0:ℝ) ≤ (0.5:ℝ) ∧ Pbase.hesitation_timer + 4 > 3.5 ∧
    ((Pbase.update 4 480 270 960 540 ⟨3.5, 0.5, 0, 0⟩).is_hesitating = true ∧
     (Pbase.update 4 480 270 960 540 ⟨3.5, 0.5, 0, 0⟩).hesitation_timer = 0) :=
  ⟨by norm_num,
   by norm_num [Pbase, Predator.init],
   (C5_hesitation_entry_amended Pbase 4 480 270 960 540 ⟨3.5, 0.5, 0, 0⟩ (by norm_num)).1
     (by norm_num [Pbase, Predator.init])⟩

/-- The predator used by the C5 counterexample: already hesitating, with an
    accumulated hesitation timer of 2.9 s. -/
noncomputable def P5 : Predator :=
  { Pbase with is_hesitating := true, hesitation_timer := 2.9 }

/-- **C5** (counterexample): a call made while `is_hesitating` is already
    true, with timer `2.9 + 0.2 = 3.1` exceeding the entry draw `3.0` (in
    `[3, 8]`) and exit draw `0.5` (in `[0.2, 0.8]`).  The source's entry
    branch fires anyway — the code has no `not is_hesitating` guard —
    observably resetting `hesitation_timer` to 0 while staying hesitating;
    had the entry branch not fired, the exit branch (`3.1 > 0.5`) would
    have ended hesitation on this very call, as the spec-worded variant
    (`hesitationEntrySpec`) shows. -/
theorem C5_hesitation_entry_counterexample :
    P5.is_hesitating = true ∧
    (P5.update 0.2 480 270 960 540 ⟨3, 0.5, 0, 0⟩).is_hesitating = true ∧
    (P5.update 0.2 480 270 960 540 ⟨3, 0.5, 0, 0⟩).hesitation_timer = 0 ∧
    (hesitationExit (hesitationEntrySpec (tickTimers P5 0.2) 3) 0.5).is_hesitating
        = false := by
  have h23 : (P5.update 0.2 480 270 960 540 ⟨3, 0.5, 0, 0⟩).is_hesitating = true ∧
      (P5.update 0.2 480 270 960 540 ⟨3, 0.5, 0, 0⟩).hesitation_timer = 0 := by
    simp only [Predator.update]
    simp only [updateRotation_is_hesitating, handle_wall_collisions_is_hesitating,
      integratePosition_is_hesitating, applyMovement_is_hesitating,
      calculate_target_is_hesitating, updateRotation_hesitation_timer,
      handle_wall_collisions_hesitation_timer, integratePosition_hesitation_timer,
      applyMovement_hesitation_timer, calculate_target_hesitation_timer]
    rw [hesitationEntry_fires _ _ (by norm_num [P5, Pbase, Predator.init])]
    rw [hesitationExit_eq_self _ _ (by norm_num)]
    exact ⟨rfl, rfl⟩
  have hspec : hesitationEntrySpec (tickTimers P5 0.2) 3 = tickTimers P5 0.2 := by
    rw [hesitationEntrySpec, if_neg]
    simp [P5, Pbase, Predator.init]
  refine ⟨rfl, h23.1, h23.2, ?_⟩
  rw [hspec, hesitationExit,
      if_pos ⟨by simp [P5, Pbase, Predator.init], by norm_num [P5, Pbase, Predator.init]⟩]

/-! ### Hesitation damping (C6) -/

/-- For a call whose hesitation branch is active, the tail of `update`
    (targeting, velocity halving, integration, wall handling, rotation)
    exactly halves both velocity components, provided the integrated
    position stays strictly inside the wall band (no bounce). -/
theorem hesitating_tail_halves (q : Predator)
    (delta_time player_x player_y d err_x err_y window_width window_height : ℝ)
    (hq : q.is_hesitating = true)
    (hx1 : q.size / 2 < q.center_x + q.velocity_x * 0.5 * delta_time)
    (hx2 : q.center_x + q.velocity_x * 0.5 * delta_time < window_width - q.size / 2)
    (hy1 : q.size / 2 < q.center_y + q.velocity_y * 0.5 * delta_time)
    (hy2 : q.center_y + q.velocity_y * 0.5 * delta_time < window_height - q.size / 2) :
    (updateRotation ((integratePosition
        (applyMovement (q.calculate_target player_x player_y d err_x err_y) delta_time)
        delta_time).handle_wall_collisions window_width window_height)).velocity_x
      = q.velocity_x * 0.5 ∧
    (updateRotation ((integratePosition
        (applyMovement (q.calculate_target player_x player_y d err_x err_y) delta_time)
        delta_time).handle_wall_collisions window_width window_height)).velocity_y
      = q.velocity_y * 0.5 := by
  have hChes : (q.calculate_target player_x player_y d err_x err_y).is_hesitating
      = true := by simp [hq]
  have hv := applyMovement_velocity_of_hesitating
    (q.calculate_target player_x player_y d err_x err_y) delta_time hChes
  have hAvx : (applyMovement (q.calculate_target player_x player_y d err_x err_y)
      delta_time).velocity_x = q.velocity_x * 0.5 := by rw [hv.1]; simp
  have hAvy : (applyMovement (q.calculate_target player_x player_y d err_x err_y)
      delta_time).velocity_y = q.velocity_y * 0.5 := by rw [hv.2]; simp
  have hIx : (integratePosition
      (applyMovement (q.calculate_target player_x player_y d err_x err_y) delta_time)
      delta_time).center_x = q.center_x + q.velocity_x * 0.5 * delta_time := by
    rw [integratePosition_center_x, hAvx]; simp
  have hIy : (integratePosition
      (applyMovement (q.calculate_target player_x player_y d err_x err_y) delta_time)
      delta_time).center_y = q.center_y + q.velocity_y * 0.5 * delta_time := by
    rw [integratePosition_center_y, hAvy]; simp
  have hIsize : (integratePosition
      (applyMovement (q.calculate_target player_x player_y d err_x err_y) delta_time)
      delta_time).size = q.size := by simp
  have hwX := wallX_id_of_inside (integratePosition
      (applyMovement (q.calculate_target player_x player_y d err_x err_y) delta_time)
      delta_time) window_width
    (by rw [hIsize, hIx]; exact hx1) (by rw [hIsize, hIx]; exact hx2)
  have hwY := wallY_id_of_inside (integratePosition
      (applyMovement (q.calculate_target player_x player_y d err_x err_y) delta_time)
      delta_time) window_height
    (by rw [hIsize, hIy]; exact hy1) (by rw [hIsize, hIy]; exact hy2)
  constructor
  · rw [updateRotation_velocity_x, Predator.handle_wall_collisions, hwX, hwY,
        integratePosition_velocity_x, hAvx]
  · rw [updateRotation_velocity_y, Predator.handle_wall_collisions, hwX, hwY,
        integratePosition_velocity_y, hAvy]

/-- **C6** (amended): for every call to `Predator.update` whose hesitation
    branch is active — `is_hesitating` true at entry and the call does not
    leave hesitation (either neither threshold is crossed, or the entry
    draw is re-crossed, renewing hesitation) — and during which no wall
    bounce occurs, both velocity components are exactly multiplied by 0.5
    (per call, independent of `dt`), so the velocity magnitude is
    non-increasing across consecutive such calls. -/
theorem C6_hesitation_halves_velocity (p : Predator)
    (delta_time player_x player_y window_width window_height : ℝ) (r : UpdateRand)
    (hhes : p.is_hesitating = true)
    (hstay : (p.hesitation_timer + delta_time ≤ r.hes_entry ∧
              p.hesitation_timer + delta_time ≤ r.hes_exit) ∨
             (p.hesitation_timer + delta_time > r.hes_entry ∧ 0 ≤ r.hes_exit))
    (hx1 : p.size / 2 < p.center_x + p.velocity_x * 0.5 * delta_time)
    (hx2 : p.center_x + p.velocity_x * 0.5 * delta_time < window_width - p.size / 2)
    (hy1 : p.size / 2 < p.center_y + p.velocity_y * 0.5 * delta_time)
    (hy2 : p.center_y + p.velocity_y * 0.5 * delta_time < window_height - p.size / 2) :
    (p.update delta_time player_x player_y window_width window_height r).velocity_x
        = p.velocity_x * 0.5 ∧
    (p.update delta_time player_x player_y window_width window_height r).velocity_y
        = p.velocity_y * 0.5 ∧
    Real.sqrt
        ((p.update delta_time player_x player_y window_width window_height r).velocity_x ^ 2 +
         (p.update delta_time player_x player_y window_width window_height r).velocity_y ^ 2)
      ≤ Real.sqrt (p.velocity_x ^ 2 + p.velocity_y ^ 2) := by
  simp only [Predator.update]
  set B := hesitationExit (hesitationEntry (stateTransition
      (perceive (tickTimers p delta_time) player_x player_y)
      (distance_to_player (perceive (tickTimers p delta_time) player_x player_y)
        player_x player_y)) r.hes_entry) r.hes_exit with hBdef
  have hBhes : B.is_hesitating = true := by
    rw [hBdef]
    rcases hstay with ⟨he, hx⟩ | ⟨hgt, hx0⟩
    · rw [hesitationEntry_eq_self _ _ (by simpa using he)]
      rw [hesitationExit_eq_self _ _ (by rw [not_and]; intro _; simpa using hx)]
      simp [hhes]
    · rw [hesitationEntry_fires _ _ (by simpa using hgt)]
      rw [hesitationExit_eq_self _ _ (by simp; exact hx0)]
  have hBvx : B.velocity_x = p.velocity_x := by rw [hBdef]; simp
  have hBvy : B.velocity_y = p.velocity_y := by rw [hBdef]; simp
  have hBcx : B.center_x = p.center_x := by rw [hBdef]; simp
  have hBcy : B.center_y = p.center_y := by rw [hBdef]; simp
  have hBsize : B.size = p.size := by rw [hBdef]; simp
  have htail := hesitating_tail_halves B delta_time player_x player_y
    (distance_to_player (perceive (tickTimers p delta_time) player_x player_y)
      player_x player_y) r.err_x r.err_y window_width window_height hBhes
    (by rw [hBsize, hBcx, hBvx]; exact hx1) (by rw [hBsize, hBcx, hBvx]; exact hx2)
    (by rw [hBsize, hBcy, hBvy]; exact hy1) (by rw [hBsize, hBcy, hBvy]; exact hy2)
  refine ⟨?_, ?_, ?_⟩
  · rw [htail.1, hBvx]
  · rw [htail.2, hBvy]
  · rw [htail.1, htail.2, hBvx, hBvy]
    exact halve_speed_le _ _ _ (le_refl _)

/-- The predator used by the C6 witness: hesitating at the window centre,
    moving right at 10 units/s. -/
noncomputable def P6w : Predator := { Pbase with is_hesitating := true, velocity_x := 10 }

/-- Witness for the amended C6 at a concrete call: the velocity (10, 0) is
    exactly halved. -/
theorem C6_hesitation_halves_velocity_witness :
    P6w.is_hesitating = true ∧
    (P6w.hesitation_timer + 0.2 ≤ (5:ℝ) ∧ P6w.hesitation_timer + 0.2 ≤ (0.6:ℝ)) ∧
    P6w.size / 2 < P6w.center_x + P6w.velocity_x * 0.5 * 0.2 ∧
    P6w.center_x + P6w.velocity_x * 0.5 * 0.2 < 960 - P6w.size / 2 ∧
    P6w.size / 2 < P6w.center_y + P6w.velocity_y * 0.5 * 0.2 ∧
    P6w.center_y + P6w.velocity_y * 0.5 * 0.2 < 540 - P6w.size / 2 ∧
    ((P6w.update 0.2 480 270 960 540 ⟨5, 0.6, 0, 0⟩).velocity_x = P6w.velocity_x * 0.5 ∧
     (P6w.update 0.2 480 270 960 540 ⟨5, 0.6, 0, 0⟩).velocity_y = P6w.velocity_y * 0.5 ∧
     Real.sqrt ((P6w.update 0.2 480 270 960 540 ⟨5, 0.6, 0, 0⟩).velocity_x ^ 2 +
                (P6w.update 0.2 480 270 960 540 ⟨5, 0.6, 0, 0⟩).velocity_y ^ 2)
       ≤ Real.sqrt (P6w.velocity_x ^ 2 + P6w.velocity_y ^ 2)) :=
  ⟨rfl,
   ⟨by norm_num [P6w, Pbase, Predator.init], by norm_num [P6w, Pbase, Predator.init]⟩,
   by norm_num [P6w, Pbase, Predator.init],
   by norm_num [P6w, Pbase, Predator.init],
   by norm_num [P6w, Pbase, Predator.init],
   by norm_num [P6w, Pbase, Predator.init],
   C6_hesitation_halves_velocity P6w 0.2 480 270 960 540 ⟨5, 0.6, 0, 0⟩ rfl
     (Or.inl ⟨by norm_num [P6w, Pbase, Predator.init],
              by norm_num [P6w, Pbase, Predator.init]⟩)
     (by norm_num [P6w, Pbase, Predator.init])
     (by norm_num [P6w, Pbase, Predator.init])
     (by norm_num [P6w, Pbase, Predator.init])
     (by norm_num [P6w, Pbase, Predator.init])⟩

/-- The predator used by the C6 counterexample: hesitating, at (100, 100),
    at rest, in `"hunting"`, with hesitation timer 0.7 s. -/
noncomputable def P6c : Predator :=
  { Pbase with center_x := 100, center_y := 100, is_hesitating := true,
               hesitation_timer := 0.7 }

set_option maxHeartbeats 1000000 in
/-- **C6** (counterexample): a call made while `is_hesitating` is true
    (timer `0.7 + 0.2 = 0.9`, exit draw `0.8`, entry draw `3`) in which the
    exit branch fires mid-call, so steering runs instead of the halving
    branch: the final velocity is (80, 0), not `0.5 * (0, 0) = (0, 0)`, and
    no wall bounce occurred (the final position (116, 100) is strictly
    inside the band `(12, 948) x (12, 528)` of the 960 x 540 window). -/
theorem C6_hesitation_halves_velocity_counterexample :
    P6c.is_hesitating = true ∧
    (P6c.update 0.2 200 100 960 540 ⟨3, 0.8, 0, 0⟩).center_x = 116 ∧
    (P6c.update 0.2 200 100 960 540 ⟨3, 0.8, 0, 0⟩).center_y = 100 ∧
    (P6c.update 0.2 200 100 960 540 ⟨3, 0.8, 0, 0⟩).velocity_x = 80 ∧
    (P6c.update 0.2 200 100 960 540 ⟨3, 0.8, 0, 0⟩).velocity_x
      ≠ P6c.velocity_x * 0.5 := by
  have hs1 : Real.sqrt ((10000:ℝ)) = 100 := by
    rw [show (10000:ℝ) = 100 ^ 2 by norm_num, Real.sqrt_sq (by norm_num)]
  have hs2 : Real.sqrt ((144000000:ℝ)) = 12000 := by
    rw [show (144000000:ℝ) = 12000 ^ 2 by norm_num, Real.sqrt_sq (by norm_num)]
  have hs3 : Real.sqrt ((6400:ℝ)) = 80 := by
    rw [show (6400:ℝ) = 80 ^ 2 by norm_num, Real.sqrt_sq (by norm_num)]
  have habs : |(80:ℝ)| = 80 := abs_of_pos (by norm_num)
  norm_num [P6c, Pbase, Predator.init, Predator.update, tickTimers, perceive,
    distance_to_player, stateTransition, hesitationEntry, hesitationExit,
    Predator.calculate_target, applyMovement, Predator.move_towards_target,
    limitSpeed, integratePosition, Predator.handle_wall_collisions, wallX, wallY,
    updateRotation, min_def, hs1, hs2, hs3, habs]
